import Mathlib

/-
Formal model of the session authorization subsystem of the nextjs-starter
repository: the auth Zustand store (`loadUser`, `login`, `signup`, `logout`,
`clearError` in src/unnamed/part_013), the client-side `AuthGuard` component
(src/src/components/providers/auth-guard.tsx), and the role utilities
(`hasRole` in src/src/entities/auth/utils.ts and
src/src/domain/entities/user.entity.ts).

The embedding is shallow: each TypeScript function is translated into an
executable Lean function over explicit state.  Browser effects are made
explicit: the tab-scoped sessionStorage flag `auth_redirecting` becomes a
boolean field, and assignments to `window.location.href` are recorded in a
list of navigation events.
-/

namespace Starter

/-- User roles, from the `UserRole` union type in
src/src/domain/entities/user.entity.ts (admin | user | guest). -/
inductive UserRole
  | admin
  | user
  | guest
  deriving DecidableEq

/-- Account status, from the `UserStatus` union type in
src/src/domain/entities/user.entity.ts. -/
inductive UserStatus
  | active
  | inactive
  | suspended
  | pending
  deriving DecidableEq

/-- User record, from the `User` / `UserEntity` interfaces (the fields the
authorization logic reads; timestamps and optional profile fields are
omitted because no modelled function reads them). -/
structure User where
  id : String
  email : String
  name : String
  role : UserRole
  status : UserStatus
  emailVerified : Bool
  deriving DecidableEq

/-- Role ranking used by `hasRole`: the `roleHierarchy` record literal in
src/src/entities/auth/utils.ts lines 82-86 (admin 3, user 2, guest 1). -/
def roleHierarchy : UserRole → Nat
  | UserRole.admin => 3
  | UserRole.user => 2
  | UserRole.guest => 1

/-- Role check, from `hasRole` in src/src/entities/auth/utils.ts lines 81-89:
`roleHierarchy[user.role] >= roleHierarchy[requiredRole]`.  The copy in
src/src/domain/entities/user.entity.ts lines 166-174 is identical. -/
def hasRole (u : User) (requiredRole : UserRole) : Bool :=
  decide (roleHierarchy u.role ≥ roleHierarchy requiredRole)

/-- Async status union, from `AsyncState` in src/src/lib/types.ts line 114:
idle | loading | success | error.  The `success` value is what the store
sets when a probe or login authenticates the user. -/
inductive AsyncState
  | idle
  | loading
  | success
  | error
  deriving DecidableEq

/-- Auth store state, from the `AuthState` interface in
src/unnamed/part_013 lines 31-40. -/
structure AuthState where
  user : Option User
  isAuthenticated : Bool
  status : AsyncState
  error : Option String
  deriving DecidableEq

/-- Initial store state, from src/unnamed/part_013 lines 105-108. -/
def initialAuthState : AuthState :=
  { user := none, isAuthenticated := false, status := AsyncState.idle, error := none }

/-- Hex digit used by percent encoding (uppercase, as produced by the
ECMAScript `encodeURIComponent` builtin the code calls). -/
def hexDigit (n : Nat) : Char :=
  if n < 10 then Char.ofNat (48 + n) else Char.ofNat (55 + n)

/-- UTF-8 bytes of a Unicode code point (standard UTF-8 layout). -/
def utf8Bytes (n : Nat) : List Nat :=
  if n < 128 then [n]
  else if n < 2048 then [192 + n / 64, 128 + n % 64]
  else if n < 65536 then [224 + n / 4096, 128 + n / 64 % 64, 128 + n % 64]
  else [240 + n / 262144, 128 + n / 4096 % 64, 128 + n / 64 % 64, 128 + n % 64]

/-- Percent-escape of one byte: a percent sign followed by two hex digits. -/
def percentByte (b : Nat) : List Char :=
  [Char.ofNat 37, hexDigit (b / 16), hexDigit (b % 16)]

/-- Characters `encodeURIComponent` leaves unescaped (ECMA-262): ASCII
letters, digits, and hyphen, underscore, dot, bang, tilde, asterisk,
apostrophe, parentheses (compared by code point). -/
def isUriUnreserved (c : Char) : Bool :=
  let n := c.toNat
  (65 ≤ n && n ≤ 90) || (97 ≤ n && n ≤ 122) || (48 ≤ n && n ≤ 57) ||
    n == 45 || n == 95 || n == 46 || n == 33 || n == 126 ||
    n == 42 || n == 39 || n == 40 || n == 41

/-- Encoding of one character under `encodeURIComponent`. -/
def encodeChar (c : Char) : List Char :=
  if isUriUnreserved c then [c] else ((utf8Bytes c.toNat).map percentByte).flatten

/-- Model of the ECMAScript `encodeURIComponent` builtin used at
src/unnamed/part_013 line 261 and auth-guard.tsx line 108. -/
def encodeURIComponent (s : String) : String :=
  String.mk ((s.data.map encodeChar).flatten)

/-- Exact public allow-list of the guard, from
src/src/components/providers/auth-guard.tsx line 27. -/
def PUBLIC_ROUTES : List String := ["/", "/login", "/signup"]

/-- Auth-page routes, from auth-guard.tsx line 28. -/
def AUTH_ROUTES : List String := ["/login", "/signup"]

/-- Private route prefixes, from auth-guard.tsx line 29. -/
def PRIVATE_ROUTES : List String := ["/dashboard", "/profile", "/settings"]

/-- Model of the JavaScript `String.prototype.startsWith` call used by the
guard: character-by-character comparison of the pattern against the head of
the string. -/
def charsStartWith : List Char → List Char → Bool
  | [], _ => true
  | _ :: _, [] => false
  | c :: cs, d :: ds => c == d && charsStartWith cs ds

/-- JavaScript `s.startsWith(pat)`. -/
def strStartsWith (s pat : String) : Bool :=
  charsStartWith pat.data s.data

/-- From auth-guard.tsx line 80:
`PUBLIC_ROUTES.some((route) => pathname === route)` (exact match). -/
def isPublicRoute (pathname : String) : Bool :=
  PUBLIC_ROUTES.any (fun route => pathname == route)

/-- From auth-guard.tsx line 81:
`AUTH_ROUTES.some((route) => pathname.startsWith(route))`. -/
def isAuthRoute (pathname : String) : Bool :=
  AUTH_ROUTES.any (fun route => strStartsWith pathname route)

/-- From auth-guard.tsx line 82:
`PRIVATE_ROUTES.some((route) => pathname.startsWith(route))`. -/
def isPrivateRoute (pathname : String) : Bool :=
  PRIVATE_ROUTES.any (fun route => strStartsWith pathname route)

/-- What the `AuthGuard` component paints: the loading placeholder (the
spinner block at auth-guard.tsx lines 120-129) or its children (line 131). -/
inductive RenderOutput
  | placeholder
  | children
  deriving DecidableEq

/-- Navigation effect issued by the route-check `useEffect` of `AuthGuard`
(auth-guard.tsx lines 74-111): either nothing, or `router.replace(url)`. -/
inductive GuardEffect
  | noEffect
  | replace (url : String)
  deriving DecidableEq

/-- The route-check effect body of `AuthGuard`, auth-guard.tsx lines 74-111,
evaluated top to bottom exactly as in the source: wait while loading; public
routes pass; an authenticated visitor on an auth route is replaced to the
dashboard; an unauthenticated visitor on a private route is replaced to the
login page with a callbackUrl; everything else falls through with no
effect. -/
def authGuardEffect (pathname : String) (isAuthenticated : Bool)
    (status : AsyncState) : GuardEffect :=
  if status = AsyncState.loading then GuardEffect.noEffect
  else if isPublicRoute pathname then GuardEffect.noEffect
  else if isAuthRoute pathname && isAuthenticated then GuardEffect.replace "/dashboard"
  else if isPrivateRoute pathname && !isAuthenticated then
    GuardEffect.replace ("/login?callbackUrl=" ++ encodeURIComponent pathname)
  else GuardEffect.noEffect

/-- The render body of `AuthGuard`, auth-guard.tsx lines 120-131: the
placeholder is returned exactly when the status is loading; otherwise the
children are returned, whatever the path and authentication state. -/
def authGuardRender (status : AsyncState) : RenderOutput :=
  if status = AsyncState.loading then RenderOutput.placeholder else RenderOutput.children

/-- One evaluation of the `AuthGuard` component at a path and store state:
the painted output together with the navigation effect. -/
def authGuard (pathname : String) (st : AuthState) : RenderOutput × GuardEffect :=
  (authGuardRender st.status, authGuardEffect pathname st.isAuthenticated st.status)

/-- Shape of the `ApiResponse` value `authAPI.getCurrentUser()` resolves
with (src/src/entities/auth/api.ts lines 145-176): a success flag, optional
user payload, HTTP status code and optional error message. -/
structure ApiResponse where
  success : Bool
  data : Option User
  statusCode : Nat
  error : Option String
  deriving DecidableEq

/-- How the awaited probe ends inside `loadUser`: the promise resolves with
an `ApiResponse`, or it rejects and control lands in the `catch` block
(carrying a message when the thrown value was an `Error`). -/
inductive ProbeOutcome
  | resolved (r : ApiResponse)
  | thrown (message : Option String)
  deriving DecidableEq

/-- World state seen by `loadUser`: the store state, the tab-scoped
sessionStorage flag `auth_redirecting` (true when the stored string is
the literal true), and the list of `window.location.href` assignments
performed so far. -/
structure World where
  store : AuthState
  flag : Bool
  navigations : List String
  deriving DecidableEq

/-- Modelled from the spec: `AUTH_CONFIG.SSO_LOGIN_URL`, imported by
src/unnamed/part_013 from `@/lib/constants`, is absent from the included
revision of constants.ts; the spec and the runtime config
(src/src/lib/contexts/env-context.tsx line 46, src/unnamed/part_003 line 35)
give the SSO login base URL, whose development default is used here.  No
theorem below depends on the concrete value. -/
def SSO_LOGIN_URL : String := "https://sso.cowexa.com/login"

/-- Fallback message of the `loadUser` error paths,
src/unnamed/part_013 lines 280 and 289. -/
def loadUserFailMsg : String := "사용자 정보 조회에 실패했습니다"

/-- The SSO redirect target built at src/unnamed/part_013 line 261. -/
def ssoRedirectUrl (currentUrl : String) : String :=
  SSO_LOGIN_URL ++ "?redirect=" ++ encodeURIComponent currentUrl

/-- The `loadUser` action, src/unnamed/part_013 lines 224-292, as a function
of the pre-world, the current `window.location.href`, and the probe outcome.
Step by step, following the source order:
1. entry (lines 226-232): if the `auth_redirecting` flag is set, remove it;
2. line 234: set the status to loading;
3. success branch (lines 239-250): store the user, set authenticated and
   success, remove the flag;
4. 401 branch (lines 251-273): re-read the flag; when it is not set, set it,
   assign `window.location.href` to the SSO URL and return with no further
   store write; when it is set, end idle and unauthenticated;
5. other-failure branch (lines 274-282) and catch (lines 283-291): end idle
   and unauthenticated with the error message. -/
def loadUser (w : World) (currentUrl : String) (probe : ProbeOutcome) : World :=
  let flag0 := if w.flag then false else w.flag
  let st0 := { w.store with status := AsyncState.loading }
  match probe with
  | ProbeOutcome.resolved r =>
    if r.success && r.data.isSome then
      { store := { st0 with
                     user := r.data
                     isAuthenticated := true
                     status := AsyncState.success }
        flag := false
        navigations := w.navigations }
    else if r.statusCode == 401 then
      if flag0 != true then
        { store := st0
          flag := true
          navigations := w.navigations ++ [ssoRedirectUrl currentUrl] }
      else
        { store := { st0 with
                       user := none
                       isAuthenticated := false
                       status := AsyncState.idle }
          flag := flag0
          navigations := w.navigations }
    else
      { store := { st0 with
                     user := none
                     isAuthenticated := false
                     status := AsyncState.idle
                     error := some (r.error.getD loadUserFailMsg) }
        flag := flag0
        navigations := w.navigations }
  | ProbeOutcome.thrown message =>
    { store := { user := none
                 isAuthenticated := false
                 status := AsyncState.idle
                 error := some (message.getD loadUserFailMsg) }
      flag := flag0
      navigations := w.navigations }

/-- How the awaited `authAPI.logout()` call ends inside the `logout` action:
the promise resolves (the api wrapper returns an `ApiResponse` even on
internal failure) or it rejects and control lands in the `catch` block. -/
inductive LogoutOutcome
  | resolvedOk
  | thrownErr
  deriving DecidableEq

/-- The `logout` action, src/unnamed/part_013 lines 184-205: the `try`
branch resets the four state fields after the api call, and the `catch`
branch performs the identical reset (the source comments that client state
is cleared even when the logout api fails). -/
def logout (_st : AuthState) (outcome : LogoutOutcome) : AuthState :=
  match outcome with
  | LogoutOutcome.resolvedOk =>
    { user := none, isAuthenticated := false, status := AsyncState.idle, error := none }
  | LogoutOutcome.thrownErr =>
    { user := none, isAuthenticated := false, status := AsyncState.idle, error := none }

/-- One store update of `useAuthStore` (src/unnamed/part_013 lines 103-301):
each constructor is exactly one `set(...)` call of the source, applied as a
zustand partial merge into the current state (fields not listed by the call
keep their values).  Constructors are ordered as the calls appear in the
file: `login` lines 117, 125-130, 135-138/142-145, `signup` lines 154,
160-163, 167-170/173-176, `logout` lines 189-194/198-203, `loadUser` lines
234, 241-245, 269-273, 276-281, 285-290, and `clearError` line 298. -/
inductive Step : AuthState → AuthState → Prop
  | loginStart (s : AuthState) :
      Step s { s with status := AsyncState.loading, error := none }
  | loginSuccess (s : AuthState) (u : User) :
      Step s { user := some u, isAuthenticated := true, status := AsyncState.success, error := none }
  | loginFailure (s : AuthState) (msg : String) :
      Step s { s with status := AsyncState.error, error := some msg }
  | signupStart (s : AuthState) :
      Step s { s with status := AsyncState.loading, error := none }
  | signupSuccess (s : AuthState) :
      Step s { s with status := AsyncState.success, error := none }
  | signupFailure (s : AuthState) (msg : String) :
      Step s { s with status := AsyncState.error, error := some msg }
  | logoutReset (s : AuthState) (o : LogoutOutcome) :
      Step s (logout s o)
  | loadStart (s : AuthState) :
      Step s { s with status := AsyncState.loading }
  | loadSuccess (s : AuthState) (u : User) :
      Step s { s with user := some u, isAuthenticated := true, status := AsyncState.success }
  | loadTerminal (s : AuthState) :
      Step s { s with user := none, isAuthenticated := false, status := AsyncState.idle }
  | loadOtherFailure (s : AuthState) (msg : String) :
      Step s { s with user := none, isAuthenticated := false, status := AsyncState.idle, error := some msg }
  | loadThrown (s : AuthState) (msg : String) :
      Step s { s with user := none, isAuthenticated := false, status := AsyncState.idle, error := some msg }
  | clearErrorStep (s : AuthState) :
      Step s { s with error := none }

/-- States of the store reachable from its initial state through the
`set(...)` calls of src/unnamed/part_013. -/
inductive Reachable : AuthState → Prop
  | init : Reachable initialAuthState
  | step (s t : AuthState) : Reachable s → Step s t → Reachable t

/-- The state invariant the store actually maintains: the user field is
populated exactly when the `isAuthenticated` flag is set. -/
def authInvariant (s : AuthState) : Prop :=
  s.user ≠ none ↔ s.isAuthenticated = true

/-- Concrete admin user for instantiations. -/
def adminUser : User :=
  { id := "1"
    email := "admin@example.com"
    name := "Admin"
    role := UserRole.admin
    status := UserStatus.active
    emailVerified := true }

/-- Concrete non-admin (role user) user for instantiations. -/
def memberUser : User :=
  { id := "2"
    email := "member@example.com"
    name := "Member"
    role := UserRole.user
    status := UserStatus.active
    emailVerified := true }

/-- A 401 probe response, as built by `getCurrentUser` in
src/src/entities/auth/api.ts lines 153-160. -/
def probe401 : ApiResponse :=
  { success := false
    data := none
    statusCode := 401
    error := some "로그인이 필요합니다" }

/-- A transient-failure probe response (the request could not complete), as
built by the catch wrapper of `getCurrentUser` in
src/src/entities/auth/api.ts lines 168-175. -/
def probe500 : ApiResponse :=
  { success := false
    data := none
    statusCode := 500
    error := some "Network Error" }

/-- A successful probe response carrying the admin user. -/
def probeOkAdmin : ApiResponse :=
  { success := true
    data := some adminUser
    statusCode := 200
    error := none }

/-- Fresh world: initial store, guard flag unset, no navigation yet. -/
def freshWorld : World :=
  { store := initialAuthState, flag := false, navigations := [] }

/-- World whose guard flag is already set (control just returned from the
identity provider). -/
def flaggedWorld : World :=
  { store := initialAuthState, flag := true, navigations := [] }

/-- A concrete current URL for instantiations. -/
def demoUrl : String := "http://localhost:3000/dashboard"

/-- A probe outcome the store treats as a transient failure: the promise
rejected, or it resolved without a usable user payload and with a status
code other than 401 (the branch structure of src/unnamed/part_013 lines
239, 251 and 274). -/
def ProbeOutcome.isTransient : ProbeOutcome → Bool
  | ProbeOutcome.resolved r => !(r.success && r.data.isSome) && r.statusCode != 401
  | ProbeOutcome.thrown _ => true

/-- The message the failure paths of `loadUser` store: the error carried by
the outcome, with the coded fallback. -/
def probeErrorMessage : ProbeOutcome → String
  | ProbeOutcome.resolved r => r.error.getD loadUserFailMsg
  | ProbeOutcome.thrown m => m.getD loadUserFailMsg

/-- The store state after a successful signup performed from the initial
state. -/
def postSignupState : AuthState :=
  { user := none, isAuthenticated := false, status := AsyncState.success, error := none }

/-- C10: the role check `hasRole` agrees with the numeric ranking admin 3,
user 2, guest 1; it is reflexive, every user satisfies the guest
requirement, an admin user satisfies every requirement, and the relation it
induces is transitive, antisymmetric and total on roles — a total order. -/
theorem hasRole_rank_total_order :
    (∀ u : User, ∀ r : UserRole, hasRole u r = true ↔ roleHierarchy r ≤ roleHierarchy u.role) ∧
    (∀ u : User, hasRole u u.role = true) ∧
    (∀ u : User, hasRole u UserRole.guest = true) ∧
    (∀ u : User, ∀ r : UserRole, u.role = UserRole.admin → hasRole u r = true) ∧
    (∀ u v : User, ∀ r : UserRole,
      hasRole u v.role = true → hasRole v r = true → hasRole u r = true) ∧
    (∀ u v : User, hasRole u v.role = true → hasRole v u.role = true → u.role = v.role) ∧
    (∀ u v : User, hasRole u v.role = true ∨ hasRole v u.role = true) := by
  refine ⟨?_, ?_, ?_, ?_, ?_, ?_, ?_⟩
  · intro u r
    simp [hasRole, ge_iff_le]
  · intro u
    simp [hasRole]
  · intro u
    cases hu : u.role <;> simp [hasRole, roleHierarchy, hu]
  · intro u r h
    cases hr : r <;> simp [hasRole, roleHierarchy, h]
  · intro u v r h1 h2
    simp only [hasRole, ge_iff_le, decide_eq_true_eq] at h1 h2 ⊢
    exact le_trans h2 h1
  · intro u v h1 h2
    cases hu : u.role <;> cases hv : v.role <;> simp_all [hasRole, roleHierarchy]
  · intro u v
    cases hu : u.role <;> cases hv : v.role <;> simp [hasRole, roleHierarchy, hu, hv]

/-- Instantiation of the admin clause of the role-check theorem at a
concrete admin user. -/
theorem hasRole_rank_total_order_witness :
    adminUser.role = UserRole.admin ∧ hasRole adminUser UserRole.user = true :=
  ⟨rfl, hasRole_rank_total_order.2.2.2.1 adminUser UserRole.user rfl⟩

/-- C9: whatever the prior store state, and whether the logout api call
resolves or rejects, `logout` leaves the store fully reset: user null, not
authenticated, status idle, error null. -/
theorem logout_always_resets (st : AuthState) (o : LogoutOutcome) :
    logout st o =
      { user := none, isAuthenticated := false, status := AsyncState.idle, error := none } := by
  cases o <;> rfl

/-- C3: code behavior at the failing input of the admin-gate claim: an
authenticated visitor of role user on the path /admin/users is neither
blocked nor redirected to the forbidden page — the guard paints the
children and issues no navigation, because the component has no admin route
set, no role check and no forbidden-page redirect. -/
theorem authGuard_admin_path_ignores_role :
    authGuard "/admin/users"
      { user := some memberUser, isAuthenticated := true, status := AsyncState.success, error := none } =
    (RenderOutput.children, GuardEffect.noEffect) := by decide

/-- C6: the public allow-list of the guard is the home, login and signup
pages — not the error pages — and a path outside every configured list
(here /reports) is painted for an unauthenticated idle session with no
redirect: an unlisted route falls open, not closed. -/
theorem publicRoutes_not_error_pages_and_fall_open :
    PUBLIC_ROUTES = ["/", "/login", "/signup"] ∧
    isPublicRoute "/reports" = false ∧
    isPrivateRoute "/reports" = false ∧
    authGuard "/reports" initialAuthState = (RenderOutput.children, GuardEffect.noEffect) := by
  refine ⟨rfl, by decide, by decide, by decide⟩

/-- C2 counterexample: /dashboard is not in the public allow-list and the
session status is idle (not authenticated), yet the gate paints the
children; its effect simultaneously schedules the login redirect, so the
protected content is painted during the redirect window. -/
theorem authGuard_paints_children_unauthenticated :
    isPublicRoute "/dashboard" = false ∧
    (authGuard "/dashboard" initialAuthState).1 = RenderOutput.children ∧
    (authGuard "/dashboard" initialAuthState).2 =
      GuardEffect.replace ("/login?callbackUrl=" ++ encodeURIComponent "/dashboard") := by
  refine ⟨by decide, by decide, by decide⟩

/-- C2 amended: the gate returns the placeholder exactly when the status is
loading; for every other status it returns the children for every path,
including non-public paths with an unauthenticated session — the login
redirect exists only as an effect, so protected content can be painted
before the navigation happens. -/
theorem authGuard_placeholder_iff_loading (pathname : String) (st : AuthState) :
    (authGuard pathname st).1 = RenderOutput.placeholder ↔ st.status = AsyncState.loading := by
  cases h : st.status <;> simp [authGuard, authGuardRender, h]

/-- Helper: both branches of the logout action produce the reset state. -/
theorem logout_eq_reset (st : AuthState) (o : LogoutOutcome) :
    logout st o =
      { user := none, isAuthenticated := false, status := AsyncState.idle, error := none } := by
  cases o <;> rfl

/-- C1: code behavior over two consecutive `loadUser` calls whose probes
both return 401, starting with the guard flag unset: the first call
navigates to the identity provider, and the second call navigates again —
its entry step removes the flag before the 401 branch re-reads it, so the
loop check never fires.  The total is two redirect navigations instead of
at most one, the flag ends set again, and no terminal unauthenticated state
is reached (the store is left loading). -/
theorem loadUser_double_401_redirects_twice :
    (loadUser freshWorld demoUrl (ProbeOutcome.resolved probe401)).navigations.length = 1 ∧
    (loadUser (loadUser freshWorld demoUrl (ProbeOutcome.resolved probe401)) demoUrl
        (ProbeOutcome.resolved probe401)).navigations.length = 2 ∧
    (loadUser (loadUser freshWorld demoUrl (ProbeOutcome.resolved probe401)) demoUrl
        (ProbeOutcome.resolved probe401)).flag = true ∧
    (loadUser (loadUser freshWorld demoUrl (ProbeOutcome.resolved probe401)) demoUrl
        (ProbeOutcome.resolved probe401)).store.status = AsyncState.loading := by
  refine ⟨by decide, by decide, by decide, by decide⟩

/-- C4 counterexample: with the guard flag set at entry and a probe that
fails transiently (status code 500), `loadUser` does not leave the flag
untouched — its unconditional entry step clears it — and the resulting
status is idle carrying the error message, not a dedicated error status. -/
theorem loadUser_transient_clears_set_flag :
    flaggedWorld.flag = true ∧
    (loadUser flaggedWorld demoUrl (ProbeOutcome.resolved probe500)).flag = false ∧
    (loadUser flaggedWorld demoUrl (ProbeOutcome.resolved probe500)).store.status = AsyncState.idle ∧
    (loadUser flaggedWorld demoUrl (ProbeOutcome.resolved probe500)).store.error = some "Network Error" := by
  refine ⟨rfl, by decide, by decide, by decide⟩

/-- C4 amended: a transient probe failure never navigates and ends in a
visible failed state — user null, not authenticated, status idle, and the
error message stored.  The failure path itself writes no guard flag, but the
unconditional entry step of `loadUser` has already cleared a previously set
flag, so the post-state flag is always unset rather than untouched. -/
theorem loadUser_transient_no_redirect (w : World) (url : String) (o : ProbeOutcome)
    (h : o.isTransient = true) :
    (loadUser w url o).navigations = w.navigations ∧
    (loadUser w url o).store.user = none ∧
    (loadUser w url o).store.isAuthenticated = false ∧
    (loadUser w url o).store.status = AsyncState.idle ∧
    (loadUser w url o).store.error = some (probeErrorMessage o) ∧
    (loadUser w url o).flag = false := by
  cases o with
  | thrown m =>
      cases hw : w.flag <;> simp [loadUser, probeErrorMessage, hw]
  | resolved r =>
      simp only [ProbeOutcome.isTransient, Bool.and_eq_true, Bool.not_eq_true',
        bne_iff_ne, ne_eq] at h
      obtain ⟨h1, h2⟩ := h
      cases hw : w.flag <;> simp [loadUser, probeErrorMessage, h1, h2, hw]

/-- Instantiation of the transient-failure theorem at the fresh world and
the concrete 500 probe. -/
theorem loadUser_transient_no_redirect_witness :
    (ProbeOutcome.resolved probe500).isTransient = true ∧
    ((loadUser freshWorld demoUrl (ProbeOutcome.resolved probe500)).navigations = freshWorld.navigations ∧
     (loadUser freshWorld demoUrl (ProbeOutcome.resolved probe500)).store.user = none ∧
     (loadUser freshWorld demoUrl (ProbeOutcome.resolved probe500)).store.isAuthenticated = false ∧
     (loadUser freshWorld demoUrl (ProbeOutcome.resolved probe500)).store.status = AsyncState.idle ∧
     (loadUser freshWorld demoUrl (ProbeOutcome.resolved probe500)).store.error =
       some (probeErrorMessage (ProbeOutcome.resolved probe500)) ∧
     (loadUser freshWorld demoUrl (ProbeOutcome.resolved probe500)).flag = false) :=
  ⟨by decide,
   loadUser_transient_no_redirect freshWorld demoUrl (ProbeOutcome.resolved probe500) (by decide)⟩

/-- C5: a probe that resolves successfully with a user record always
authenticates: that user is stored, the store reports authenticated (the
success status), the guard flag ends cleared whatever its prior value, and
no navigation happens. -/
theorem loadUser_success_authenticates (w : World) (url : String) (r : ApiResponse) (u : User)
    (hs : r.success = true) (hd : r.data = some u) :
    (loadUser w url (ProbeOutcome.resolved r)).store.user = some u ∧
    (loadUser w url (ProbeOutcome.resolved r)).store.isAuthenticated = true ∧
    (loadUser w url (ProbeOutcome.resolved r)).store.status = AsyncState.success ∧
    (loadUser w url (ProbeOutcome.resolved r)).flag = false ∧
    (loadUser w url (ProbeOutcome.resolved r)).navigations = w.navigations := by
  simp [loadUser, hs, hd]

/-- Instantiation of the successful-probe theorem at a world whose guard
flag is still set from a previous cycle. -/
theorem loadUser_success_authenticates_witness :
    probeOkAdmin.success = true ∧ probeOkAdmin.data = some adminUser ∧
    ((loadUser flaggedWorld demoUrl (ProbeOutcome.resolved probeOkAdmin)).store.user = some adminUser ∧
     (loadUser flaggedWorld demoUrl (ProbeOutcome.resolved probeOkAdmin)).store.isAuthenticated = true ∧
     (loadUser flaggedWorld demoUrl (ProbeOutcome.resolved probeOkAdmin)).store.status = AsyncState.success ∧
     (loadUser flaggedWorld demoUrl (ProbeOutcome.resolved probeOkAdmin)).flag = false ∧
     (loadUser flaggedWorld demoUrl (ProbeOutcome.resolved probeOkAdmin)).navigations = flaggedWorld.navigations) :=
  ⟨rfl, rfl, loadUser_success_authenticates flaggedWorld demoUrl probeOkAdmin adminUser rfl rfl⟩

/-- C8: a 401 probe with the guard flag unset sets the flag and navigates
exactly once, to the SSO login base URL with the current full URL,
URL-encoded, appended as the redirect query parameter; the only store write
of the cycle is the loading status. -/
theorem loadUser_401_unset_flag_redirects (w : World) (url : String) (r : ApiResponse)
    (hf : w.flag = false) (hp : (r.success && r.data.isSome) = false) (hc : r.statusCode = 401) :
    (loadUser w url (ProbeOutcome.resolved r)).flag = true ∧
    (loadUser w url (ProbeOutcome.resolved r)).navigations =
      w.navigations ++ [SSO_LOGIN_URL ++ "?redirect=" ++ encodeURIComponent url] ∧
    (loadUser w url (ProbeOutcome.resolved r)).store = { w.store with status := AsyncState.loading } := by
  simp [loadUser, hp, hc, hf, ssoRedirectUrl]

/-- Instantiation of the 401-redirect theorem at the fresh world, the demo
URL and the concrete 401 probe. -/
theorem loadUser_401_unset_flag_redirects_witness :
    freshWorld.flag = false ∧ (probe401.success && probe401.data.isSome) = false ∧
    probe401.statusCode = 401 ∧
    ((loadUser freshWorld demoUrl (ProbeOutcome.resolved probe401)).flag = true ∧
     (loadUser freshWorld demoUrl (ProbeOutcome.resolved probe401)).navigations =
       freshWorld.navigations ++ [SSO_LOGIN_URL ++ "?redirect=" ++ encodeURIComponent demoUrl] ∧
     (loadUser freshWorld demoUrl (ProbeOutcome.resolved probe401)).store =
       { freshWorld.store with status := AsyncState.loading }) :=
  ⟨rfl, rfl, rfl,
   loadUser_401_unset_flag_redirects freshWorld demoUrl probe401 rfl rfl rfl⟩

/-- C7 counterexample: the state reached from the initial state by the two
signup writes (loading at src/unnamed/part_013 line 154, then success at
lines 160-163) carries the success status that marks an authenticated
session while its user field is still null — the invariant tying a non-null
user to the authenticated status fails on a reachable state. -/
theorem reachable_success_with_null_user :
    Reachable postSignupState ∧
    postSignupState.status = AsyncState.success ∧
    postSignupState.user = none := by
  refine ⟨?_, rfl, rfl⟩
  have h0 : Reachable initialAuthState := Reachable.init
  have h1 : Reachable { initialAuthState with status := AsyncState.loading, error := none } :=
    Reachable.step _ _ h0 (Step.signupStart initialAuthState)
  exact Reachable.step _ _ h1 (Step.signupSuccess _)

/-- C7 amended: every single store write preserves the invariant that the
user field is populated exactly when the `isAuthenticated` flag is set, and
hence every reachable store state satisfies it.  The analogous invariant
phrased with the status field fails on a reachable state (see the signup
counterexample): the status field is a per-operation async state, and
`isAuthenticated` is the field that tracks the session. -/
theorem reachable_user_iff_authenticated :
    (∀ s t : AuthState, authInvariant s → Step s t → authInvariant t) ∧
    (∀ s : AuthState, Reachable s → authInvariant s) := by
  have hstep : ∀ s t : AuthState, authInvariant s → Step s t → authInvariant t := by
    intro s t hinv hst
    cases hst <;> simp_all [authInvariant, logout_eq_reset]
  refine ⟨hstep, ?_⟩
  intro s h
  induction h with
  | init => simp [authInvariant, initialAuthState]
  | step s t hs hst ih => exact hstep s t ih hst

/-- Instantiation of the invariant theorem at the initial state. -/
theorem reachable_user_iff_authenticated_witness :
    Reachable initialAuthState ∧ authInvariant initialAuthState :=
  ⟨Reachable.init, reachable_user_iff_authenticated.2 initialAuthState Reachable.init⟩

end Starter
